import Mathlib

/-!
Verification development for the EduNavigator retrieval subsystem.

The Python source is shallowly embedded: SQLite table rows become Lean
structures (nullable columns become Option), BLOB embeddings become lists of
rationals (a blob of 4*n bytes is n float32 values, so the Python check
len(embedding) // 4 != dimension becomes a length check on the list), SQL
queries become list transformations in table iteration order, and exception
driven control flow becomes explicit branching on Except / Option values.
Floating point arithmetic is modelled over the rationals.
-/

namespace EduNavigator

/-- A row of the universities table (src/utils/db_utils.py, init_db).
Columns country and description are nullable; name is NOT NULL. -/
structure University where
  id : Nat
  name : String
  country : Option String
  description : Option String
deriving DecidableEq

/-- A row of the courses table (src/utils/db_utils.py, init_db).
Every column except name is nullable, including university_id. -/
structure Course where
  id : Nat
  university_id : Option Nat
  name : String
  description : Option String
  degree_type : Option String
  starting_date : Option String
  duration : Option String
  scholarship : Option String
  fee_structure : Option String
  language_of_study : Option String
  field_of_study : Option String
deriving DecidableEq

/-- An embedding vector: the float32 values of a stored BLOB. -/
abbrev Vec := List ℚ

/-- The relational state: the two entity tables and the two embedding-store
tables (university_embeddings, course_embeddings), each embedding row keyed by
the id of the owning entity, in insertion order. -/
structure DB where
  universities : List University
  courses : List Course
  university_embeddings : List (Nat × Vec)
  course_embeddings : List (Nat × Vec)
deriving DecidableEq

/-- The two vec0 virtual tables (vec_university, vec_course): rowid paired
with the stored embedding. -/
structure VecTables where
  vec_university : List (Nat × Vec)
  vec_course : List (Nat × Vec)
deriving DecidableEq

/-! ### SQL LIKE and Python substring matching -/

/-- Containment of one character list in another, used for the SQL pattern
LIKE with a percent sign on both sides and for the Python operator in. -/
def charsContain (hay pat : List Char) : Bool :=
  match hay with
  | [] => pat.isEmpty
  | _ :: tl => pat.isPrefixOf hay || charsContain tl pat

/-- ASCII-case-insensitive substring test: SQLite LIKE is case insensitive,
and the Python code compares query.lower() against keyword.lower(). The
lowering is applied per character of the underlying character list. -/
def strContains (hay pat : String) : Bool :=
  charsContain (hay.toList.map Char.toLower) (pat.toList.map Char.toLower)

/-- SQL `col LIKE pat` where col may be NULL: NULL never matches. -/
def sqlLike (field : Option String) (pat : String) : Bool :=
  match field with
  | none => false
  | some s => strContains s pat

/-! ### Search results -/

/-- A result dictionary built by search_vector_similarity or
search_text_similarity: the university shape has keys id, name, country,
description, similarity_score; the course shape additionally carries the
joined university name and the course detail columns. -/
inductive SearchRow where
  | univ (id : Nat) (name : String) (country description : Option String)
      (similarity_score : ℚ)
  | course (id : Nat) (name : String) (university_name : String)
      (description degree_type field_of_study starting_date duration
        fee_structure language_of_study : Option String)
      (similarity_score : ℚ)
deriving DecidableEq

/-- The similarity_score entry of a result dictionary. -/
def SearchRow.score : SearchRow → ℚ
  | .univ _ _ _ _ s => s
  | .course _ _ _ _ _ _ _ _ _ _ s => s

/-- The distance-to-similarity conversion of search_vector_similarity
(src/utils/db_utils.py lines 384 and 422):
similarity = 1.0 - min(distance / 2.0, 1.0). -/
def simScore (distance : ℚ) : ℚ :=
  1 - min (distance / 2) 1

/-! ### Lexical fallback: search_text_similarity -/

/-- The inner join of courses with universities on
c.university_id = u.id, in iteration order of the courses table. -/
def courseJoin (db : DB) : List (Course × University) :=
  db.courses.filterMap fun c =>
    match c.university_id with
    | none => none
    | some uid => (db.universities.find? fun u => u.id == uid).map fun u => (c, u)

/-- Embedding of search_text_similarity (src/utils/db_utils.py 463-557).
For entity_type university it selects universities whose name, description or
country matches LIKE both-sided wildcard with the query, limited to limit
rows, each given the constant similarity_score 0.5; for course it does the
same over the course join on name, description and field_of_study. For any
other entity_type the function raises ValueError inside its own try block,
catches it in its own handler and returns the empty list. -/
def search_text_similarity (db : DB) (entity_type : String) (query : String)
    (limit : Nat) : List SearchRow :=
  if entity_type = "university" then
    ((db.universities.filter fun u =>
        sqlLike (some u.name) query || sqlLike u.description query ||
          sqlLike u.country query).take limit).map
      fun u => .univ u.id u.name u.country u.description (1 / 2)
  else if entity_type = "course" then
    (((courseJoin db).filter fun cu =>
        sqlLike (some cu.1.name) query || sqlLike cu.1.description query ||
          sqlLike cu.1.field_of_study query).take limit).map
      fun cu => .course cu.1.id cu.1.name cu.2.name cu.1.description
        cu.1.degree_type cu.1.field_of_study cu.1.starting_date cu.1.duration
        cu.1.fee_structure cu.1.language_of_study (1 / 2)
  else []

/-! ### The vec0 KNN query (spec-modelled) -/

/-- Ordering used by the KNN query on (entityId, distance) pairs: by distance
first, ties by entityId. -/
def knnLe (a b : Nat × ℚ) : Prop :=
  a.2 < b.2 ∨ (a.2 = b.2 ∧ a.1 ≤ b.1)

instance : DecidableRel knnLe := fun a b => by
  unfold knnLe
  exact inferInstance

instance : IsTotal (Nat × ℚ) knnLe where
  total a b := by
    rcases lt_trichotomy a.2 b.2 with h | h | h
    · exact Or.inl (Or.inl h)
    · rcases Nat.le_total a.1 b.1 with h1 | h1
      · exact Or.inl (Or.inr ⟨h, h1⟩)
      · exact Or.inr (Or.inr ⟨h.symm, h1⟩)
    · exact Or.inr (Or.inl h)

instance : IsTrans (Nat × ℚ) knnLe where
  trans a b c hab hbc := by
    rcases hab with hab | ⟨hab, hab1⟩
    · rcases hbc with hbc | ⟨hbc, _⟩
      · exact Or.inl (hab.trans hbc)
      · exact Or.inl (hbc ▸ hab)
    · rcases hbc with hbc | ⟨hbc, hbc1⟩
      · exact Or.inl (hab ▸ hbc)
      · exact Or.inr ⟨hab.trans hbc, hab1.trans hbc1⟩

/-- Modelled from the spec: the KNN query of a vec0 virtual table
(`WHERE embedding MATCH ? AND K = k ORDER BY distance`). The implementation
lives in the sqlite-vec extension and is not under src/; src/ holds only the
virtual-table declarations and the SQL callers. Per the spec (section 4.2)
the query returns up to k (entityId, distance) pairs ordered by ascending
distance, ties broken by ascending entityId. The distance metric is kept
abstract as a parameter, since no claim depends on its values. -/
def vec0Knn (dist : Vec → Vec → ℚ) (entries : List (Nat × Vec)) (q : Vec)
    (k : Nat) : List (Nat × ℚ) :=
  (List.insertionSort knnLe (entries.map fun e => (e.1, dist e.2 q))).take k

/-! ### Vector search path of search_vector_similarity -/

/-- The university branch of the vector path (src/utils/db_utils.py 362-396):
KNN over vec_university with the hardcoded K = 3, joined with the
universities table on rowid = id (rows without a live university drop out of
the inner join), each distance converted by simScore. -/
def univVectorRows (dist : Vec → Vec → ℚ) (db : DB) (vt : VecTables)
    (q : Vec) : List SearchRow :=
  (vec0Knn dist vt.vec_university q 3).filterMap fun rd =>
    (db.universities.find? fun u => u.id == rd.1).map fun u =>
      .univ u.id u.name u.country u.description (simScore rd.2)

/-- The course branch of the vector path (src/utils/db_utils.py 398-440):
KNN over vec_course with the hardcoded K = 3, joined with courses on
rowid = c.id and with universities on c.university_id = u.id. -/
def courseVectorRows (dist : Vec → Vec → ℚ) (db : DB) (vt : VecTables)
    (q : Vec) : List SearchRow :=
  (vec0Knn dist vt.vec_course q 3).filterMap fun rd =>
    (db.courses.find? fun c => c.id == rd.1).bind fun c =>
      (c.university_id.bind fun uid =>
          db.universities.find? fun u => u.id == uid).map fun u =>
        .course c.id c.name u.name c.description c.degree_type
          c.field_of_study c.starting_date c.duration c.fee_structure
          c.language_of_study (simScore rd.2)

/-- Whether the vector machinery is usable on this connection: unavailable
covers every exception raised before or during the vector SQL (extension
load failure, missing virtual table, malformed query vector). -/
inductive IndexState where
  | unavailable
  | ready (vt : VecTables)

/-- The try block of search_vector_similarity: on a usable index it returns
the university or course rows; an unknown entity_type raises ValueError,
and an unusable index raises whatever low-level error occurred. All
exceptions are collapsed to a unit error, as the handler ignores the value. -/
def tryVectorSearch (dist : Vec → Vec → ℚ) (st : IndexState) (db : DB)
    (entity_type : String) (q : Vec) : Except Unit (List SearchRow) :=
  match st with
  | .unavailable => .error ()
  | .ready vt =>
    if entity_type = "university" then .ok (univVectorRows dist db vt q)
    else if entity_type = "course" then .ok (courseVectorRows dist db vt q)
    else .error ()

/-- Python truthiness of the optional query_text parameter: None and the
empty string are falsy. -/
def pyTruthyStr : Option String → Bool
  | none => false
  | some s => !s.isEmpty

/-- Embedding of search_vector_similarity (src/utils/db_utils.py 333-461).
The vector path is attempted first; on any exception the handler falls back
to search_text_similarity when query_text is truthy (`if query_text:`) and
returns the empty list otherwise. The function itself never raises. -/
def search_vector_similarity (dist : Vec → Vec → ℚ) (st : IndexState)
    (db : DB) (entity_type : String) (q : Vec) (limit : Nat)
    (query_text : Option String) : List SearchRow :=
  match tryVectorSearch dist st db entity_type q with
  | .ok rs => rs
  | .error _ =>
    if pyTruthyStr query_text then
      search_text_similarity db entity_type (query_text.getD "") limit
    else []

/-! ### The exposed search boundary (src/modules/semantic_search_api.py) -/

/-- Outcome of the GET /search endpoint: a normal body with the two result
lists, or an HTTPException with a status code and detail string. Pydantic
response validation is not modelled further; no claim touches it and it
never fires on an empty list. -/
inductive ApiResponse where
  | ok (universities courses : List SearchRow)
  | httpError (status : Nat) (detail : String)
deriving DecidableEq

/-- Python truthiness of the optional embedding returned by
generate_embedding: None and the empty list are falsy. -/
def pyTruthyVec : Option Vec → Bool
  | none => false
  | some v => !v.isEmpty

/-- Embedding of the search endpoint (src/modules/semantic_search_api.py
78-127). A falsy embedding raises HTTPException 500 with a fixed detail.
Otherwise search_vector_similarity is called for the classes selected by
search_type, with NO query_text argument, so its fallback can only return
the empty list. The surrounding try/except re-raising HTTPException 500 on
a database error is unreachable: search_vector_similarity never raises. -/
def apiSearch (dist : Vec → Vec → ℚ) (st : IndexState) (db : DB)
    (embedding : Option Vec) (limit : Nat) (search_type : String) :
    ApiResponse :=
  if !(pyTruthyVec embedding) then
    .httpError 500 "Failed to generate embedding for query"
  else
    let v := embedding.getD []
    let us := if search_type = "all" || search_type = "universities" then
        search_vector_similarity dist st db "university" v limit none
      else []
    let cs := if search_type = "all" || search_type = "courses" then
        search_vector_similarity dist st db "course" v limit none
      else []
    .ok us cs

/-! ### Intent router (src/utils/gemini_utils.py, classify_query_intent) -/

/-- A Python value stored in the intent dictionary. -/
inductive PyVal where
  | bool (b : Bool)
  | str (s : String)
deriving DecidableEq

/-- The parsed QueryIntent produced by the language model call. -/
structure QueryIntent where
  requires_lookup : Bool
  target : String
  reason : String
deriving DecidableEq

/-- The dictionary result.dict() of a QueryIntent: always three keys. -/
def QueryIntent.toDict (i : QueryIntent) : List (String × PyVal) :=
  [("requires_lookup", .bool i.requires_lookup),
   ("target", .str i.target),
   ("reason", .str i.reason)]

/-- Embedding of classify_query_intent (src/utils/gemini_utils.py 127-160).
The language model call is modelled by an Option: none means the call (or
its output parsing) raised. On success the parsed intent is returned
verbatim as a dictionary; on failure the handler returns the fixed
dictionary with requires_lookup False and target unknown. -/
def classify_query_intent (llm : Option QueryIntent) : List (String × PyVal) :=
  match llm with
  | some r => r.toDict
  | none => (QueryIntent.mk false "unknown" "error message").toDict

/-- Python truthiness of a dictionary: a dictionary is truthy when it is
non-empty. -/
def pyTruthyDict (d : List (String × PyVal)) : Bool :=
  !d.isEmpty

/-! ### Chat module (src/modules/chat_module.py) -/

/-- The university keyword list of ChatModule._search_relevant_data. -/
def universityKeywords : List String :=
  ["university", "college", "institution", "campus", "school"]

/-- The course keyword list of ChatModule._search_relevant_data. -/
def courseKeywords : List String :=
  ["course", "program", "degree", "study", "major", "bachelor", "master"]

/-- Number of keywords of the list occurring in the query, both lowercased:
sum(1 for keyword in keywords if keyword.lower() in query.lower()). -/
def keywordScore (keywords : List String) (query : String) : Nat :=
  (keywords.filter fun k => strContains query k).length

/-- Observable retrieval behaviour of one ChatModule.process_query call:
whether _search_relevant_data ran at all (it always searches courses), and
whether it additionally searched universities. -/
structure ChatTrace where
  did_lookup : Bool
  searched_universities : Bool
deriving DecidableEq

/-- Embedding of ChatModule.process_query together with
_requires_data_lookup and _search_relevant_data (src/modules/chat_module.py
21-114). _requires_data_lookup returns the WHOLE dictionary produced by
classify_query_intent, not its requires_lookup entry, and process_query
branches on the truthiness of that dictionary. When the branch is taken and
the query embedding is truthy, _search_relevant_data always searches
courses with limit 3 and searches universities with limit 2 exactly when
the university keyword score is at least the course keyword score; the
target entry of the intent is never consulted. -/
def process_query (dist : Vec → Vec → ℚ) (st : IndexState) (db : DB)
    (llm : Option QueryIntent) (embedding : Option Vec) (query : String) :
    ChatTrace :=
  let requires_lookup := classify_query_intent llm
  if pyTruthyDict requires_lookup then
    match embedding with
    | none => ⟨false, false⟩
    | some v =>
      if v.isEmpty then ⟨false, false⟩
      else
        let uScore := keywordScore universityKeywords query
        let cScore := keywordScore courseKeywords query
        let _courses := search_vector_similarity dist st db "course" v 3
          (some query)
        let _universities := if cScore ≤ uScore then
            search_vector_similarity dist st db "university" v 2 (some query)
          else []
        ⟨true, decide (cScore ≤ uScore)⟩
  else ⟨false, false⟩

/-! ### Embedding store writes and index population -/

/-- Embedding of the store write
`INSERT INTO university_embeddings (university_id, embedding) VALUES (?, ?)`
(src/modules/embedding_generator.py 109-112). The BLOB column carries no
type or length constraint, so the insert performs no dimension check: it
appends the row unconditionally. -/
def insert_university_embedding (db : DB) (uid : Nat) (v : Vec) : DB :=
  { db with university_embeddings := db.university_embeddings ++ [(uid, v)] }

/-- Embedding of the normalization inside generate_embedding
(src/utils/gemini_utils.py 115-121): a successfully produced raw vector is
truncated to DIMENSION when longer and zero-padded when shorter. -/
def normalize_embedding (D : Nat) (raw : Vec) : Vec :=
  if D < raw.length then raw.take D
  else raw ++ List.replicate (D - raw.length) 0

/-- The population loop of setup_vector_extension (src/utils/db_utils.py
140-173): rows whose blob length in floats differs from the configured
dimension are skipped (with a logged warning), the rest are inserted in
iteration order. -/
def populateVec (D : Nat) : List (Nat × Vec) → List (Nat × Vec)
  | [] => []
  | r :: tl =>
    if r.2.length == D then r :: populateVec D tl else populateVec D tl

/-- Embedding of setup_vector_extension (src/utils/db_utils.py 87-205) under
a loadable extension: both virtual tables are dropped, recreated with the
configured dimension D, and repopulated from the embedding-store tables by
populateVec. The returned VecTables replace any previous index state. -/
def setup_vector_extension (D : Nat) (db : DB) : VecTables :=
  { vec_university := populateVec D db.university_embeddings,
    vec_course := populateVec D db.course_embeddings }

/-- Embedding of check_and_fix_embeddings (src/utils/db_utils.py 560-643)
under a loadable extension. It first runs setup_vector_extension (separate
connection, committed), then deletes both virtual tables and reinserts
every stored embedding WITHOUT a dimension filter on its own connection.
When every stored vector has length D that transaction commits and the
index holds all rows; otherwise the first wrong-length insert raises inside
vec0, the handler rolls the delete/reinsert transaction back, and the
committed state of setup_vector_extension remains. -/
def check_and_fix_embeddings (D : Nat) (db : DB) : VecTables :=
  let afterSetup := setup_vector_extension D db
  if (db.university_embeddings.all fun p => p.2.length == D) &&
      (db.course_embeddings.all fun p => p.2.length == D) then
    { vec_university := db.university_embeddings,
      vec_course := db.course_embeddings }
  else afterSetup

/-! ### Concrete fixtures for witnesses and counterexamples -/

/-- A trivial distance function for concrete instantiations. -/
def distZero : Vec → Vec → ℚ := fun _ _ => 0

/-- A database holding one university row. -/
def dbOneU : DB := ⟨[⟨1, "Harvard", some "USA", some "Ivy"⟩], [], [], []⟩

/-- Vector tables indexing the single university of dbOneU. -/
def vtOneU : VecTables := ⟨[(1, [1])], []⟩

/-- A database holding two university rows. -/
def dbTwoU : DB := ⟨[⟨1, "A", none, none⟩, ⟨2, "B", none, none⟩], [], [], []⟩

/-- Vector tables indexing both universities of dbTwoU. -/
def vtTwo : VecTables := ⟨[(1, [1]), (2, [1])], []⟩

/-- An empty database. -/
def dbEmpty : DB := ⟨[], [], [], []⟩

/-! ### Helper lemmas -/

/-- Every row produced by the lexical fallback carries the constant
similarity_score 0.5. -/
theorem score_of_mem_text (db : DB) (entity_type query : String) (limit : Nat) :
    ∀ r ∈ search_text_similarity db entity_type query limit,
      r.score = 1 / 2 := by
  intro r hr
  unfold search_text_similarity at hr
  split_ifs at hr
  · rcases List.mem_map.1 hr with ⟨u, _, rfl⟩
    rfl
  · rcases List.mem_map.1 hr with ⟨cu, _, rfl⟩
    rfl
  · simp at hr

/-- The population loop of setup_vector_extension keeps exactly the rows of
the configured dimension, in order. -/
theorem populateVec_eq_filter (D : Nat) (l : List (Nat × Vec)) :
    populateVec D l = l.filter fun p => p.2.length == D := by
  induction l with
  | nil => rfl
  | cons h t ih =>
    simp only [populateVec, List.filter_cons, ih]

/-- The fallback of search_vector_similarity returns the empty list when no
query text is passed. -/
theorem search_vector_similarity_none_of_error (dist : Vec → Vec → ℚ)
    (st : IndexState) (db : DB) (entity_type : String) (q : Vec) (limit : Nat)
    (h : tryVectorSearch dist st db entity_type q = .error ()) :
    search_vector_similarity dist st db entity_type q limit none = [] := by
  unfold search_vector_similarity
  rw [h]
  rfl

/-! ### Claim C1 -/

/-- Claim C1: on the vector-search path every returned result has
similarity_score equal to simScore of its index distance, where
simScore d = 1 - min(d / 2, 1); distance 0 maps to 1, distance 2 maps to 0,
distance 4 maps to 0 (clamped), and every non-negative distance yields a
score in the closed interval from 0 to 1. -/
theorem similarity_score_mapping :
    (simScore 0 = 1 ∧ simScore 2 = 0 ∧ simScore 4 = 0) ∧
    (∀ d : ℚ, 0 ≤ d → 0 ≤ simScore d ∧ simScore d ≤ 1) ∧
    (∀ dist db vt q, ∀ r ∈ univVectorRows dist db vt q,
      ∃ p ∈ vec0Knn dist vt.vec_university q 3, r.score = simScore p.2) ∧
    (∀ dist db vt q, ∀ r ∈ courseVectorRows dist db vt q,
      ∃ p ∈ vec0Knn dist vt.vec_course q 3, r.score = simScore p.2) := by
  refine ⟨⟨by norm_num [simScore], by norm_num [simScore], by norm_num [simScore]⟩,
    ?_, ?_, ?_⟩
  · intro d hd
    have h1 : min (d / 2) 1 ≤ 1 := min_le_right _ _
    have h2 : (0 : ℚ) ≤ min (d / 2) 1 := le_min (by positivity) zero_le_one
    constructor
    · simp only [simScore]
      linarith
    · simp only [simScore]
      linarith
  · intro dist db vt q r hr
    rcases List.mem_filterMap.1 hr with ⟨p, hp, hmap⟩
    refine ⟨p, hp, ?_⟩
    rcases hfind : db.universities.find? fun u => u.id == p.1 with _ | u
    · rw [hfind] at hmap
      simp at hmap
    · rw [hfind, Option.map_some'] at hmap
      rw [← Option.some_inj.1 hmap]
      rfl
  · intro dist db vt q r hr
    rcases List.mem_filterMap.1 hr with ⟨p, hp, hmap⟩
    refine ⟨p, hp, ?_⟩
    rcases hfind : db.courses.find? fun c => c.id == p.1 with _ | c
    · rw [hfind] at hmap
      simp at hmap
    · rw [hfind, Option.some_bind] at hmap
      rcases hbind : c.university_id.bind fun uid =>
          db.universities.find? fun u => u.id == uid with _ | u
      · rw [hbind] at hmap
        simp at hmap
      · rw [hbind, Option.map_some'] at hmap
        rw [← Option.some_inj.1 hmap]
        rfl

/-- Claim C1 witness: the bound is exercised at distance 3 and the
membership hypothesis at a concrete populated index. -/
theorem similarity_score_mapping_check :
    (0 ≤ (3 : ℚ) ∧ 0 ≤ simScore 3 ∧ simScore 3 ≤ 1) ∧
    (SearchRow.univ 1 "Harvard" (some "USA") (some "Ivy") (simScore 0) ∈
        univVectorRows distZero dbOneU vtOneU [1] ∧
      ∃ p ∈ vec0Knn distZero vtOneU.vec_university [1] 3,
        (SearchRow.univ 1 "Harvard" (some "USA") (some "Ivy")
            (simScore 0)).score = simScore p.2) :=
  ⟨⟨by norm_num, (similarity_score_mapping.2.1 3 (by norm_num)).1,
      (similarity_score_mapping.2.1 3 (by norm_num)).2⟩,
    List.Mem.head _,
    similarity_score_mapping.2.2.1 distZero dbOneU vtOneU [1] _
      (List.Mem.head _)⟩

/-! ### Claim C4 -/

/-- Claim C4 counterexample: with the caller limit 1 and two indexed
universities, the vector path returns 2 results, more than the caller
limit, so the caller limit is not a bound on the vector path; the SQL
fragment fixes K = 3 instead of using the limit parameter. -/
theorem limit_bound_counterexample :
    (search_vector_similarity distZero (.ready vtTwo) dbTwoU "university"
        [1] 1 none).length = 2 := by decide

/-- Claim C4 amended: the vector path runs the KNN with the hardcoded K = 3
whatever the caller limit is, so it returns at most 3 results; the caller
limit bounds only the lexical fallback path. -/
theorem vector_path_k_is_three :
    (∀ dist vt db q limit qt,
      (search_vector_similarity dist (.ready vt) db "university" q limit
          qt).length ≤ 3 ∧
      (search_vector_similarity dist (.ready vt) db "course" q limit
          qt).length ≤ 3) ∧
    (∀ db entity_type query limit,
      (search_text_similarity db entity_type query limit).length ≤ limit) := by
  constructor
  · intro dist vt db q limit qt
    constructor
    · show (univVectorRows dist db vt q).length ≤ 3
      calc (univVectorRows dist db vt q).length
          ≤ (vec0Knn dist vt.vec_university q 3).length :=
            List.length_filterMap_le _ _
        _ ≤ 3 := List.length_take_le 3 _
    · show (courseVectorRows dist db vt q).length ≤ 3
      calc (courseVectorRows dist db vt q).length
          ≤ (vec0Knn dist vt.vec_course q 3).length :=
            List.length_filterMap_le _ _
        _ ≤ 3 := List.length_take_le 3 _
  · intro db entity_type query limit
    unfold search_text_similarity
    split_ifs
    · calc (((db.universities.filter _).take limit).map _).length
          = ((db.universities.filter _).take limit).length :=
            List.length_map _ _
        _ ≤ limit := List.length_take_le limit _
    · calc ((((courseJoin db).filter _).take limit).map _).length
          = (((courseJoin db).filter _).take limit).length :=
            List.length_map _ _
        _ ≤ limit := List.length_take_le limit _
    · simp

/-! ### Claim C9 -/

/-- Claim C9: both repair operations leave each vec0 virtual table holding
exactly the embedding-store rows whose vector length equals the configured
dimension D: setup_vector_extension skips the rest during population, and
check_and_fix_embeddings reaches the same state because its unfiltered
reinsert either contains no wrong-length row (and then equals the filter)
or aborts on the first wrong-length vec0 insert and rolls back to the state
setup_vector_extension committed. -/
theorem rebuild_filters_dimension (D : Nat) (db : DB) :
    (setup_vector_extension D db).vec_university =
      db.university_embeddings.filter (fun p => p.2.length == D) ∧
    (setup_vector_extension D db).vec_course =
      db.course_embeddings.filter (fun p => p.2.length == D) ∧
    (check_and_fix_embeddings D db).vec_university =
      db.university_embeddings.filter (fun p => p.2.length == D) ∧
    (check_and_fix_embeddings D db).vec_course =
      db.course_embeddings.filter (fun p => p.2.length == D) := by
  refine ⟨populateVec_eq_filter D _, populateVec_eq_filter D _, ?_, ?_⟩
  · unfold check_and_fix_embeddings
    split_ifs with h
    · rw [Bool.and_eq_true] at h
      exact (List.filter_eq_self.2 (List.all_eq_true.1 h.1)).symm
    · exact populateVec_eq_filter D _
  · unfold check_and_fix_embeddings
    split_ifs with h
    · rw [Bool.and_eq_true] at h
      exact (List.filter_eq_self.2 (List.all_eq_true.1 h.2)).symm
    · exact populateVec_eq_filter D _

/-! ### Claim C10 -/

/-- Claim C10: for an entity_type other than university and course,
search_vector_similarity returns the empty list whether or not query_text
is given: the ValueError of the vector path is absorbed by the fallback
handler, and the ValueError the lexical fallback raises for the unknown
entity_type is caught by its own handler, yielding the empty list. The
function is total, so it never raises. -/
theorem unknown_entity_type_empty (dist : Vec → Vec → ℚ) (st : IndexState)
    (db : DB) (entity_type : String) (q : Vec) (limit : Nat)
    (qt : Option String) (h1 : entity_type ≠ "university")
    (h2 : entity_type ≠ "course") :
    search_vector_similarity dist st db entity_type q limit qt = [] := by
  have hfail : tryVectorSearch dist st db entity_type q = .error () := by
    cases st with
    | unavailable => rfl
    | ready vt =>
      show (if entity_type = "university" then
          Except.ok (univVectorRows dist db vt q)
        else if entity_type = "course" then
          Except.ok (courseVectorRows dist db vt q)
        else Except.error ()) = Except.error ()
      rw [if_neg h1, if_neg h2]
  unfold search_vector_similarity
  rw [hfail]
  show (if pyTruthyStr qt then
      search_text_similarity db entity_type (qt.getD "") limit
    else []) = []
  split_ifs
  · unfold search_text_similarity
    rw [if_neg h1, if_neg h2]
  · rfl

/-- Claim C10 witness: the unknown entity_type city yields the empty list. -/
theorem unknown_entity_type_empty_check :
    ("city" ≠ "university" ∧ "city" ≠ "course") ∧
    search_vector_similarity distZero .unavailable dbOneU "city" [1] 5
      (some "x") = [] :=
  ⟨⟨by decide, by decide⟩,
    unknown_entity_type_empty distZero .unavailable dbOneU "city" [1] 5
      (some "x") (by decide) (by decide)⟩

/-! ### Claim C2 -/

/-- Claim C2 counterexample: the handler tests the Python truthiness of
query_text, not whether it was provided. With the provided empty string the
function returns the empty list, while the lexical fallback for that query
text is non-empty, so the returned list is not the fallback result list. -/
theorem fallback_query_text_counterexample :
    search_vector_similarity distZero .unavailable dbOneU "university" [1] 5
        (some "") = [] ∧
    search_text_similarity dbOneU "university" "" 5 =
      [.univ 1 "Harvard" (some "USA") (some "Ivy") (1 / 2)] :=
  ⟨rfl, rfl⟩

/-- Claim C2 amended: if the vector path fails and query_text is provided
and non-empty, the function returns exactly the lexical fallback results,
each with similarity_score 0.5; if query_text is absent or empty it returns
the empty list rather than raising. -/
theorem fallback_on_vector_failure (dist : Vec → Vec → ℚ) (st : IndexState)
    (db : DB) (entity_type : String) (q : Vec) (limit : Nat)
    (qt : Option String)
    (hfail : tryVectorSearch dist st db entity_type q = .error ()) :
    (∀ s, qt = some s → s ≠ "" →
      search_vector_similarity dist st db entity_type q limit qt =
        search_text_similarity db entity_type s limit ∧
      ∀ r ∈ search_text_similarity db entity_type s limit,
        r.score = 1 / 2) ∧
    ((qt = none ∨ qt = some "") →
      search_vector_similarity dist st db entity_type q limit qt = []) := by
  constructor
  · rintro s rfl hs
    have ht : pyTruthyStr (some s) = true := by
      unfold pyTruthyStr
      rw [Bool.not_eq_true']
      exact Bool.eq_false_iff.2 fun h => hs ((String.isEmpty_iff s).1 h)
    unfold search_vector_similarity
    rw [hfail]
    show (if pyTruthyStr (some s) then
        search_text_similarity db entity_type ((some s).getD "") limit
      else []) = _ ∧ _
    rw [ht]
    exact ⟨if_pos rfl, score_of_mem_text db entity_type s limit⟩
  · intro hq
    unfold search_vector_similarity
    rw [hfail]
    rcases hq with rfl | rfl
    · rfl
    · rfl

/-- Claim C2 witness: a concrete failed vector path with non-empty query
text returns the fallback rows, and with no query text returns the empty
list. -/
theorem fallback_on_vector_failure_check :
    search_vector_similarity distZero .unavailable dbOneU "university" [1] 5
        (some "x") = search_text_similarity dbOneU "university" "x" 5 ∧
    search_vector_similarity distZero .unavailable dbOneU "university" [1] 5
        none = [] :=
  ⟨((fallback_on_vector_failure distZero .unavailable dbOneU "university"
        [1] 5 (some "x") rfl).1 "x" rfl (by decide)).1,
    (fallback_on_vector_failure distZero .unavailable dbOneU "university"
        [1] 5 none rfl).2 (Or.inl rfl)⟩

/-! ### Claim C3 -/

/-- Claim C3 counterexample: with a failed index the endpoint answers with
the normal empty body, exactly the body it answers with when the index is
intact but holds nothing, so a search-path failure IS reported as a
silently empty result body indistinguishable from no matches. -/
theorem api_silent_empty_counterexample :
    apiSearch distZero .unavailable dbOneU (some [1]) 5 "all" =
        .ok [] [] ∧
    apiSearch distZero (.ready ⟨[], []⟩) dbOneU (some [1]) 5 "all" =
      .ok [] [] :=
  ⟨rfl, rfl⟩

/-- Claim C3 amended: an embedding-generation failure (a falsy embedding)
produces the explicit HTTP 500 failure status, distinct from an empty
body; but a failure of the downstream search is absorbed, because the
boundary passes no query text and search_vector_similarity never raises,
so the endpoint replies with the normal empty body. -/
theorem api_error_reporting (dist : Vec → Vec → ℚ) (st : IndexState)
    (db : DB) (limit : Nat) (search_type : String) :
    apiSearch dist st db none limit search_type =
        .httpError 500 "Failed to generate embedding for query" ∧
    apiSearch dist st db (some []) limit search_type =
        .httpError 500 "Failed to generate embedding for query" ∧
    (∀ v : Vec, v ≠ [] →
      apiSearch dist .unavailable db (some v) limit search_type =
        .ok [] []) := by
  refine ⟨rfl, rfl, ?_⟩
  intro v hv
  have hne : v.isEmpty = false := by
    cases v with
    | nil => exact absurd rfl hv
    | cons a l => rfl
  have hempty : ∀ et, search_vector_similarity dist .unavailable db et v
      limit none = [] := fun et =>
    search_vector_similarity_none_of_error dist .unavailable db et v limit rfl
  simp [apiSearch, pyTruthyVec, hne, hempty, ite_self]

/-- Claim C3 witness: a concrete non-empty embedding with a failed index
yields the normal empty body. -/
theorem api_error_reporting_check :
    ([1] : Vec) ≠ [] ∧
    apiSearch distZero .unavailable dbOneU (some [1]) 5 "universities" =
      .ok [] [] :=
  ⟨by decide,
    (api_error_reporting distZero .unavailable dbOneU 5 "universities").2.2
      [1] (by decide)⟩

/-! ### Claim C5 -/

/-- Claim C5: the KNN query (spec-modelled, see vec0Knn) returns at most k
pairs, ordered by strictly ascending distance except that equal distances
are ordered by strictly ascending entityId, so for distinct entry ids the
output order is deterministic. -/
theorem vec0_knn_ordering (dist : Vec → Vec → ℚ) (entries : List (Nat × Vec))
    (q : Vec) (k : Nat)
    (hids : entries.Pairwise fun a b => a.1 ≠ b.1) :
    (vec0Knn dist entries q k).length ≤ k ∧
    (vec0Knn dist entries q k).Pairwise fun a b =>
      a.2 < b.2 ∨ (a.2 = b.2 ∧ a.1 < b.1) := by
  constructor
  · exact List.length_take_le k _
  · have hmap : (entries.map fun e => (e.1, dist e.2 q)).Pairwise
        fun a b : Nat × ℚ => a.1 ≠ b.1 :=
      hids.map _ fun a b h => h
    have hperm : (List.insertionSort knnLe
        (entries.map fun e => (e.1, dist e.2 q))).Perm
        (entries.map fun e => (e.1, dist e.2 q)) :=
      List.perm_insertionSort knnLe _
    have hne : (List.insertionSort knnLe
        (entries.map fun e => (e.1, dist e.2 q))).Pairwise
        fun a b : Nat × ℚ => a.1 ≠ b.1 :=
      (hperm.pairwise_iff fun h => Ne.symm h).2 hmap
    have hsorted : (List.insertionSort knnLe
        (entries.map fun e => (e.1, dist e.2 q))).Pairwise knnLe :=
      List.sorted_insertionSort knnLe _
    have hcomb := (hsorted.and hne).sublist (List.take_sublist k _)
    refine hcomb.imp ?_
    rintro a b ⟨hle | ⟨heq, hle⟩, hneq⟩
    · exact Or.inl hle
    · exact Or.inr ⟨heq, lt_of_le_of_ne hle hneq⟩

/-- Claim C5 witness: two entries at equal distance come out in ascending
entityId order. -/
theorem vec0_knn_ordering_check :
    ([((2 : Nat), ([1] : Vec)), (1, [1])].Pairwise fun a b => a.1 ≠ b.1) ∧
    ((vec0Knn distZero [(2, [1]), (1, [1])] [1] 2).length ≤ 2 ∧
      (vec0Knn distZero [(2, [1]), (1, [1])] [1] 2).Pairwise fun a b =>
        a.2 < b.2 ∨ (a.2 = b.2 ∧ a.1 < b.1)) :=
  ⟨by decide,
    vec0_knn_ordering distZero [(2, [1]), (1, [1])] [1] 2 (by decide)⟩

/-! ### Claim C6 -/

/-- Claim C6: on a failed classification call classify_query_intent does
return a dictionary with requires_lookup False, but process_query still
performs the data lookup, because _requires_data_lookup returns the whole
dictionary and a non-empty dictionary is truthy; the second half of the
claim is violated at this input. -/
theorem classification_fault_still_looks_up :
    (classify_query_intent none).lookup "requires_lookup" =
        some (.bool false) ∧
    (process_query distZero .unavailable dbOneU none (some [1])
        "tell me about harvard").did_lookup = true :=
  ⟨rfl, rfl⟩

/-! ### Claim C7 -/

/-- Claim C7 counterexample: with requires_lookup True and the
out-of-enumeration target unrecognized, the target is returned verbatim
(never collapsed to both), and for a query whose course keyword score
exceeds its university keyword score only courses are searched, so both
entity classes are NOT searched. -/
theorem target_normalization_counterexample :
    (classify_query_intent
        (some ⟨true, "unrecognized", "reason"⟩)).lookup "target" =
      some (.str "unrecognized") ∧
    (process_query distZero .unavailable dbOneU
        (some ⟨true, "unrecognized", "reason"⟩) (some [1])
        "program details").searched_universities = false :=
  ⟨rfl, by decide⟩

/-- Claim C7 amended: no target normalization exists. classify_query_intent
returns the classifier target verbatim, and the chat module ignores the
target entirely: whatever the intent (even a failed classification), it
performs the lookup whenever the query embedding is truthy, always
searching courses, and searches universities exactly when the query
contains at least as many university keywords as course keywords. -/
theorem target_ignored_keyword_gating :
    (∀ r : QueryIntent,
      (classify_query_intent (some r)).lookup "target" =
        some (.str r.target)) ∧
    (∀ (dist : Vec → Vec → ℚ) (st : IndexState) (db : DB)
        (llm : Option QueryIntent) (q : String) (v : Vec), v ≠ [] →
      (process_query dist st db llm (some v) q).did_lookup = true ∧
      (process_query dist st db llm (some v) q).searched_universities =
        decide (keywordScore courseKeywords q ≤
          keywordScore universityKeywords q)) := by
  constructor
  · intro r
    rfl
  · intro dist st db llm q v hv
    have hne : v.isEmpty = false := by
      cases v with
      | nil => exact absurd rfl hv
      | cons a l => rfl
    have htrue : pyTruthyDict (classify_query_intent llm) = true := by
      cases llm <;> rfl
    simp [process_query, htrue, hne]

/-- Claim C7 witness: the gating is exercised on a concrete query holding
one course keyword and no university keyword. -/
theorem target_ignored_keyword_gating_check :
    ([1] : Vec) ≠ [] ∧
    (process_query distZero .unavailable dbOneU none (some [1])
        "program details").searched_universities =
      decide (keywordScore courseKeywords "program details" ≤
        keywordScore universityKeywords "program details") :=
  ⟨by decide,
    (target_ignored_keyword_gating.2 distZero .unavailable dbOneU none
        "program details" [1] (by decide)).2⟩

/-! ### Claim C8 -/

/-- Claim C8 counterexample: with configured dimension 2, storing the
length-3 vector raises no DimensionMismatch and does not leave the store
unchanged: the write succeeds unconditionally and the wrong-length pair is
present in the store afterwards. -/
theorem dimension_mismatch_put_counterexample :
    (([1, 2, 3] : Vec).length ≠ 2) ∧
    (insert_university_embedding dbEmpty 7 [1, 2, 3]).university_embeddings
        ≠ dbEmpty.university_embeddings ∧
    (7, ([1, 2, 3] : Vec)) ∈
      (insert_university_embedding dbEmpty 7 [1, 2, 3]).university_embeddings :=
  ⟨by decide, by decide, by decide⟩

/-- Claim C8 amended: the embedding-store write performs no dimension check
at all: a wrong-length vector is stored without error. Dimension
consistency is provided elsewhere: generate_embedding truncates or pads
every produced vector to the configured dimension, and index population
(setup_vector_extension) filters wrong-length rows out of the vec0
tables. -/
theorem store_write_unchecked (D : Nat) (db : DB) (uid : Nat) (v : Vec)
    (h : v.length ≠ D) :
    (uid, v) ∈ (insert_university_embedding db uid v).university_embeddings ∧
    (uid, v) ∉ (setup_vector_extension D
        (insert_university_embedding db uid v)).vec_university ∧
    ∀ raw : Vec, (normalize_embedding D raw).length = D := by
  refine ⟨?_, ?_, ?_⟩
  · exact List.mem_append_right _ (List.mem_singleton.2 rfl)
  · show (uid, v) ∉ populateVec D _
    rw [populateVec_eq_filter]
    intro hmem
    have h2 := (List.mem_filter.1 hmem).2
    simp only [beq_iff_eq] at h2
    exact h h2
  · intro raw
    unfold normalize_embedding
    split_ifs with hlen
    · rw [List.length_take]
      omega
    · rw [List.length_append, List.length_replicate]
      omega

/-- Claim C8 witness: the concrete wrong-length vector is stored, excluded
from the rebuilt index, and normalization always produces dimension 2. -/
theorem store_write_unchecked_check :
    (([1, 2, 3] : Vec).length ≠ 2) ∧
    ((7, ([1, 2, 3] : Vec)) ∈
        (insert_university_embedding dbEmpty 7 [1, 2, 3]).university_embeddings ∧
      (7, ([1, 2, 3] : Vec)) ∉
        (setup_vector_extension 2
          (insert_university_embedding dbEmpty 7 [1, 2, 3])).vec_university ∧
      ∀ raw : Vec, (normalize_embedding 2 raw).length = 2) :=
  ⟨by decide, store_write_unchecked 2 dbEmpty 7 [1, 2, 3] (by decide)⟩

end EduNavigator
